import Mathlib

/-!
Verification of the Identity Store + Decision Engine of the FaceDetectAI
face-recognition backend.

The HTTP layer (`src/api/routes.py`, `src/api/schemas.py`) is translated
from source.  The core modules it calls (`models/database.py`,
`models/face_recognizer.py`, `models/anti_spoofing.py`) are not part of the
provided sources, so their operations are modelled from the specification
(spec.md §3, §4.1, §4.2, §4.3); each such definition is marked
`Modelled from the spec:` in its doc comment.

Embedding choices: embeddings are lists of rationals, cosine similarity is
a real number (the spec formula divides by a product of Euclidean norms),
timestamps are naturals supplied by the caller as `now`.
-/

open scoped Classical

/-- Error taxonomy of the core operations (spec §7): `Conflict`, `NotFound`,
`DimensionMismatch`, `ValidationError`, `StorageIO`. -/
inductive ErrKind where
  | conflict
  | notFound
  | dimensionMismatch
  | validationError
  | storageIO
deriving DecidableEq

/-- Face record of the registry (spec §3 and `src/api/schemas.py`
`FaceRecord`): immutable `id` and `user_id`, mutable optional `name`,
embedding vector, opaque metadata, and two timestamps. -/
structure FaceRecord where
  id : Nat
  user_id : String
  name : Option String
  embedding : List ℚ
  metadata : Option (List (String × String))
  created_at : Nat
  updated_at : Nat
deriving DecidableEq

/-- Modelled from the spec: the durable registry state behind
`models/database.py` (absent from src/).  `dim` is the store-wide embedding
dimension fixed at initialization (spec §3), `records` the live records in
ascending-`id` (insertion) order, `nextId` the monotone id counter. -/
structure Store where
  dim : Nat
  records : List FaceRecord
  nextId : Nat
deriving DecidableEq

/-- Look up the live record of a `user_id`, if any. -/
def find_record (s : Store) (uid : String) : Option FaceRecord :=
  s.records.find? (fun r => r.user_id == uid)

/-- Modelled from the spec: `Add` of §4.1 (the `db.add_face` called at
`src/api/routes.py:288`).  Fails with `Conflict` if `user_id` already has a
live record, with `DimensionMismatch` if the embedding length differs from
the store dimension, with `ValidationError` if `user_id` is empty; on
success assigns `id`, sets `created_at = updated_at = now` and appends the
record. -/
def add_face (s : Store) (now : Nat) (uid : String) (emb : List ℚ)
    (nm : Option String) (md : Option (List (String × String))) :
    Except ErrKind (Store × FaceRecord) :=
  if (find_record s uid).isSome then .error .conflict
  else if emb.length ≠ s.dim then .error .dimensionMismatch
  else if uid = "" then .error .validationError
  else
    let r : FaceRecord := ⟨s.nextId, uid, nm, emb, md, now, now⟩
    .ok (⟨s.dim, s.records ++ [r], s.nextId + 1⟩, r)

/-- Modelled from the spec: `Get` of §4.1 (read-only, never an error). -/
def get_face (s : Store) (uid : String) : Option FaceRecord :=
  find_record s uid

/-- Modelled from the spec: `Count` of §4.1 (the `db.get_user_count` called
at `src/api/routes.py:67`). -/
def get_user_count (s : Store) : Nat :=
  s.records.length

/-- Modelled from the spec: `ListEmbeddings` of §4.1 (the
`db.get_all_embeddings` called at `src/api/routes.py:151`): a point-in-time
snapshot of `(user_id, embedding)` pairs in ascending-`id` order. -/
def get_all_embeddings (s : Store) : List (String × List ℚ) :=
  s.records.map (fun r => (r.user_id, r.embedding))

/-- Dimension admissibility of an optional replacement embedding. -/
def dimOk : Option (List ℚ) → Nat → Bool
  | none, _ => true
  | some e, d => e.length == d

/-- Partial-field merge of an update (spec §4.1): each provided field
overwrites, an omitted field is left unchanged, and `updated_at` is set to
`now` in every case. -/
def applyUpdate (r : FaceRecord) (now : Nat) (emb : Option (List ℚ))
    (nm : Option String) : FaceRecord :=
  { r with
    embedding := emb.getD r.embedding,
    name := match nm with | some n => some n | none => r.name,
    updated_at := now }

/-- Modelled from the spec: `Update` of §4.1 (the `db.update_face` called at
`src/api/routes.py:385`).  `NotFound` if absent, `DimensionMismatch` when a
new embedding of the wrong length is supplied; otherwise the record is
replaced by its partial-field merge. -/
def update_face (s : Store) (now : Nat) (uid : String)
    (emb : Option (List ℚ)) (nm : Option String) :
    Except ErrKind (Store × FaceRecord) :=
  match find_record s uid with
  | none => .error .notFound
  | some r =>
    if dimOk emb s.dim then
      let r2 := applyUpdate r now emb nm
      .ok (⟨s.dim, s.records.map (fun x => if x.user_id == uid then r2 else x),
            s.nextId⟩, r2)
    else .error .dimensionMismatch

/-- Modelled from the spec: `Delete` of §4.1 (the `db.delete_face` called at
`src/api/routes.py:332`). -/
def delete_face (s : Store) (uid : String) : Except ErrKind Store :=
  if (find_record s uid).isSome then
    .ok ⟨s.dim, s.records.filter (fun r => r.user_id != uid), s.nextId⟩
  else .error .notFound

/-- Run a sequence of `Add` calls that all use the same `user_id`
(the repeated-`user_id` scenario of spec §8), threading the store through
the successes and advancing the clock on every call; returns the final
store and the per-call results. -/
def run_add_seq (s : Store) (uid : String) (now : Nat) :
    List (List ℚ) → Store × List (Except ErrKind FaceRecord)
  | [] => (s, [])
  | e :: rest =>
    match add_face s now uid e none none with
    | .ok p =>
      let q := run_add_seq p.1 uid (now + 1) rest
      (q.1, .ok p.2 :: q.2)
    | .error err =>
      let q := run_add_seq s uid (now + 1) rest
      (q.1, .error err :: q.2)

lemma add_face_of_present {s : Store} {uid : String} (now : Nat)
    (e : List ℚ) (h : (find_record s uid).isSome) :
    add_face s now uid e none none = .error .conflict := by
  unfold add_face
  rw [if_pos h]

lemma run_add_seq_of_present {uid : String} :
    ∀ (l : List (List ℚ)) (s : Store) (now : Nat),
      (find_record s uid).isSome →
      run_add_seq s uid now l = (s, l.map (fun _ => .error .conflict)) := by
  intro l
  induction l with
  | nil => intro s now _; rfl
  | cons e rest ih =>
    intro s now h
    unfold run_add_seq
    rw [add_face_of_present now e h]
    simp [ih s (now + 1) h]

/-- If `uid` has no live record, a fresh record appended at the tail is the
one `find_record` returns. -/
lemma find_record_append {s : Store} {uid : String} {r : FaceRecord}
    (habs : find_record s uid = none) (hr : r.user_id = uid) :
    (s.records ++ [r]).find? (fun x => x.user_id == uid) = some r := by
  have h1 : s.records.find? (fun x => x.user_id == uid) = none := habs
  rw [List.find?_append, h1]
  simp [hr]

/-- C1.  For a sequence of `Add` calls repeating one `user_id` (first call
well-formed, `user_id` initially free), exactly the first call succeeds:
every later call returns `Conflict`, the record count grows by exactly one
over the whole run, and the record created by the winner is still the live
record of that `user_id` at the end, unchanged. -/
theorem add_face_uniqueness (s : Store) (uid : String) (now : Nat)
    (e : List ℚ) (rest : List (List ℚ))
    (hu : uid ≠ "") (habs : find_record s uid = none)
    (hdim : e.length = s.dim) :
    (run_add_seq s uid now (e :: rest)).2
        = .ok ⟨s.nextId, uid, none, e, none, now, now⟩
            :: rest.map (fun _ => .error .conflict)
    ∧ get_user_count (run_add_seq s uid now (e :: rest)).1
        = get_user_count s + 1
    ∧ find_record (run_add_seq s uid now (e :: rest)).1 uid
        = some ⟨s.nextId, uid, none, e, none, now, now⟩ := by
  have hadd : add_face s now uid e none none
      = .ok (⟨s.dim, s.records ++ [⟨s.nextId, uid, none, e, none, now, now⟩],
              s.nextId + 1⟩, ⟨s.nextId, uid, none, e, none, now, now⟩) := by
    unfold add_face
    rw [if_neg (by simp [habs]), if_neg (by simp [hdim]), if_neg hu]
  have hfind : (s.records
        ++ [(⟨s.nextId, uid, none, e, none, now, now⟩ : FaceRecord)]).find?
      (fun x => x.user_id == uid)
      = some (⟨s.nextId, uid, none, e, none, now, now⟩ : FaceRecord) :=
    find_record_append habs rfl
  have hpresent :
      (find_record (⟨s.dim,
          s.records ++ [⟨s.nextId, uid, none, e, none, now, now⟩],
          s.nextId + 1⟩ : Store) uid).isSome := by
    unfold find_record
    simp only [hfind, Option.isSome_some]
  have hrun := run_add_seq_of_present rest
    (⟨s.dim, s.records ++ [⟨s.nextId, uid, none, e, none, now, now⟩],
      s.nextId + 1⟩ : Store) (now + 1) hpresent
  have hmain : run_add_seq s uid now (e :: rest)
      = (⟨s.dim, s.records ++ [⟨s.nextId, uid, none, e, none, now, now⟩],
          s.nextId + 1⟩,
         .ok ⟨s.nextId, uid, none, e, none, now, now⟩
            :: rest.map (fun _ => .error .conflict)) := by
    unfold run_add_seq
    rw [hadd]
    simp only [hrun]
  refine ⟨by rw [hmain], ?_, ?_⟩
  · rw [hmain]
    simp [get_user_count]
  · rw [hmain]
    unfold find_record
    exact hfind

/-- Witness for C1: on a fresh two-dimensional store, adding `"alice"`
twice yields one success and one `Conflict`, a final count of one, and the
winner's record intact. -/
theorem add_face_uniqueness_wit :
    (run_add_seq ⟨2, [], 0⟩ "alice" 5 [[1, 0], [0, 1]]).2
        = [.ok ⟨0, "alice", none, [1, 0], none, 5, 5⟩, .error .conflict]
    ∧ get_user_count (run_add_seq ⟨2, [], 0⟩ "alice" 5 [[1, 0], [0, 1]]).1 = 1
    ∧ find_record (run_add_seq ⟨2, [], 0⟩ "alice" 5 [[1, 0], [0, 1]]).1 "alice"
        = some ⟨0, "alice", none, [1, 0], none, 5, 5⟩ := by
  have h := add_face_uniqueness ⟨2, [], 0⟩ "alice" 5 [1, 0] [[0, 1]]
    (by decide) rfl rfl
  simpa using h

/-- C8.  Update with only a name provided changes only the name field and
strictly advances `updated_at`; update with both fields omitted is a
record-preserving no-op that still advances `updated_at` (spec §4.1, §8;
the `db.update_face` call at `src/api/routes.py:385`). -/
theorem update_face_partial (s : Store) (uid : String) (r : FaceRecord)
    (now : Nat) (n : String)
    (hr : find_record s uid = some r) (ht : r.updated_at < now) :
    (∃ s2 r2, update_face s now uid none (some n) = .ok (s2, r2)
        ∧ r2.id = r.id ∧ r2.user_id = r.user_id ∧ r2.name = some n
        ∧ r2.embedding = r.embedding ∧ r2.metadata = r.metadata
        ∧ r2.created_at = r.created_at ∧ r.updated_at < r2.updated_at)
    ∧ (∃ s3 r3, update_face s now uid none none = .ok (s3, r3)
        ∧ r3.id = r.id ∧ r3.user_id = r.user_id ∧ r3.name = r.name
        ∧ r3.embedding = r.embedding ∧ r3.metadata = r.metadata
        ∧ r3.created_at = r.created_at ∧ r.updated_at < r3.updated_at) := by
  constructor
  · simp only [update_face, hr, dimOk]
    exact ⟨_, _, rfl, rfl, rfl, rfl, rfl, rfl, rfl, ht⟩
  · simp only [update_face, hr, dimOk]
    exact ⟨_, _, rfl, rfl, rfl, rfl, rfl, rfl, rfl, ht⟩

/-- Witness for C8 on a one-record store: a name-only update and an empty
update of user `"u"` at a later clock. -/
theorem update_face_partial_wit :
    (∃ s2 r2, update_face ⟨2, [⟨0, "u", some "old", [1, 0], none, 0, 0⟩], 1⟩
          3 "u" none (some "X") = .ok (s2, r2)
        ∧ r2.id = 0 ∧ r2.user_id = "u" ∧ r2.name = some "X"
        ∧ r2.embedding = [1, 0] ∧ r2.metadata = none
        ∧ r2.created_at = 0 ∧ 0 < r2.updated_at)
    ∧ (∃ s3 r3, update_face ⟨2, [⟨0, "u", some "old", [1, 0], none, 0, 0⟩], 1⟩
          3 "u" none none = .ok (s3, r3)
        ∧ r3.id = 0 ∧ r3.user_id = "u" ∧ r3.name = some "old"
        ∧ r3.embedding = [1, 0] ∧ r3.metadata = none
        ∧ r3.created_at = 0 ∧ 0 < r3.updated_at) :=
  update_face_partial ⟨2, [⟨0, "u", some "old", [1, 0], none, 0, 0⟩], 1⟩
    "u" ⟨0, "u", some "old", [1, 0], none, 0, 0⟩ 3 "X" rfl (by decide)

/-- Modelled from the spec: per-signal texture result of §4.3 consumed by
the fusion (the raw metrics feeding `texture_score` are opaque to the
fusion policy); `is_real` is the sub-verdict. -/
structure TextureCheck where
  texture_score : ℚ
  is_real : Bool
deriving DecidableEq

/-- Modelled from the spec: per-signal reflection result of §4.3;
`is_screen = true` is the hard spoof indicator. -/
structure ReflectionCheck where
  reflection_score : ℚ
  is_screen : Bool
deriving DecidableEq

/-- Modelled from the spec: per-signal color result of §4.3. -/
structure ColorCheck where
  color_score : ℚ
  is_natural : Bool
deriving DecidableEq

/-- Modelled from the spec: per-signal blur/sharpness result of §4.3. -/
structure BlurCheck where
  sharpness_score : ℚ
  is_sharp : Bool
deriving DecidableEq

/-- Set of zero to four independent signal results handed to the fusion
(spec §4.3, `src/api/schemas.py` `AntiSpoofingChecks`); every slot is
optional because an analyzer may fail upstream and be omitted. -/
structure LivenessChecks where
  texture : Option TextureCheck
  reflection : Option ReflectionCheck
  color : Option ColorCheck
  blur : Option BlurCheck
deriving DecidableEq

/-- Sub-scores of the checks actually present, in fixed signal order. -/
def presentScores (c : LivenessChecks) : List ℚ :=
  (c.texture.map TextureCheck.texture_score).toList
    ++ (c.reflection.map ReflectionCheck.reflection_score).toList
    ++ (c.color.map ColorCheck.color_score).toList
    ++ (c.blur.map BlurCheck.sharpness_score).toList

/-- Truth of `reflection.is_screen`; an absent reflection check is not a
screen indication. -/
def screen_flag (c : LivenessChecks) : Bool :=
  match c.reflection with
  | some rc => rc.is_screen
  | none => false

/-- Modelled from the spec: the fused confidence of §4.3, the mean of the
sub-scores that are present, and `0` when zero checks are present. -/
def fuse_confidence (c : LivenessChecks) : ℚ :=
  let l := presentScores c
  if l.length = 0 then 0 else l.sum / l.length

/-- Liveness verdict (spec §3): pass/fail plus fused confidence. -/
structure LivenessVerdict where
  is_live : Bool
  confidence : ℚ
deriving DecidableEq

/-- Modelled from the spec: the fusion policy of §4.3 behind
`anti_spoof.check_liveness` (`src/api/routes.py:224`, module absent from
src/): `is_live = (confidence ≥ fusion_threshold) AND (reflection.is_screen
is not true)`, with the fusion threshold a configuration parameter. -/
def check_liveness (thr : ℚ) (c : LivenessChecks) : LivenessVerdict :=
  let conf := fuse_confidence c
  ⟨decide (thr ≤ conf) && !screen_flag c, conf⟩

/-- C2.  The screen-reflection hard-fail takes precedence: whenever
`reflection.is_screen` is true the verdict is not live, whatever the
aggregate confidence; and `is_live` holds exactly when the confidence
reaches the fusion threshold and `is_screen` is not true. -/
theorem check_liveness_screen_hard_fail (thr : ℚ) (c : LivenessChecks) :
    (screen_flag c = true → (check_liveness thr c).is_live = false)
    ∧ ((check_liveness thr c).is_live = true
        ↔ (thr ≤ fuse_confidence c ∧ screen_flag c = false)) := by
  constructor
  · intro h
    simp [check_liveness, h]
  · simp [check_liveness, Bool.and_eq_true, decide_eq_true_eq,
      Bool.not_eq_true']

/-- All four checks present with perfect sub-scores and passing sub-verdicts
except `is_screen = true` (the hard-fail scenario of spec §8). -/
def hard_fail_checks : LivenessChecks :=
  ⟨some ⟨1, true⟩, some ⟨1, true⟩, some ⟨1, true⟩, some ⟨1, true⟩⟩

/-- Witness for C2: with every sub-score at 1 (confidence 1, far above the
threshold 1/2) but `is_screen = true`, the fused verdict is not live. -/
theorem check_liveness_screen_hard_fail_wit :
    (check_liveness (1 / 2) hard_fail_checks).is_live = false
    ∧ (1 / 2 : ℚ) ≤ fuse_confidence hard_fail_checks :=
  ⟨(check_liveness_screen_hard_fail (1 / 2) hard_fail_checks).1 rfl,
   by norm_num [fuse_confidence, presentScores, hard_fail_checks]⟩

/-- No signal survived upstream analysis: zero present checks. -/
def empty_checks : LivenessChecks := ⟨none, none, none, none⟩

/-- C6.  Fusion never errors on missing signals: with zero present checks
the confidence is 0 and the verdict is not live (for any positive fusion
threshold), and for every non-empty subset of signals the confidence is the
mean of exactly the sub-scores present — absent checks never count against
the average. -/
theorem check_liveness_degrades (thr : ℚ) (hthr : 0 < thr) :
    (check_liveness thr empty_checks).confidence = 0
    ∧ (check_liveness thr empty_checks).is_live = false
    ∧ ∀ c : LivenessChecks, presentScores c ≠ [] →
        (check_liveness thr c).confidence
          = (presentScores c).sum / (presentScores c).length := by
  refine ⟨rfl, ?_, ?_⟩
  · simp [check_liveness, screen_flag, empty_checks,
      decide_eq_false_iff_not]
    exact hthr
  · intro c hc
    simp [check_liveness, fuse_confidence, List.length_eq_zero, hc]

/-- Witness for C6 at fusion threshold 1/2, with the all-present check set
as the non-empty subset. -/
theorem check_liveness_degrades_wit :
    (check_liveness (1 / 2) empty_checks).confidence = 0
    ∧ (check_liveness (1 / 2) empty_checks).is_live = false
    ∧ (check_liveness (1 / 2) hard_fail_checks).confidence
        = (presentScores hard_fail_checks).sum
            / (presentScores hard_fail_checks).length :=
  ⟨(check_liveness_degrades (1 / 2) (by norm_num)).1,
   (check_liveness_degrades (1 / 2) (by norm_num)).2.1,
   (check_liveness_degrades (1 / 2) (by norm_num)).2.2 hard_fail_checks
     (by decide)⟩

/-- Dot product of two embedding vectors (truncating at the shorter tail,
which the dimension guard of `Match` rules out). -/
def dot : List ℚ → List ℚ → ℚ
  | [], _ => 0
  | _, [] => 0
  | a :: as, b :: bs => a * b + dot as bs

/-- Squared Euclidean norm; it vanishes exactly on degenerate (zero-norm)
embeddings. -/
def normSq (v : List ℚ) : ℚ :=
  dot v v

/-- Euclidean norm of an embedding, as a real number. -/
noncomputable def norm2 (v : List ℚ) : ℝ :=
  Real.sqrt ((normSq v : ℚ) : ℝ)

/-- Modelled from the spec: cosine similarity of §4.2,
`dot(query, candidate) / (‖query‖ · ‖candidate‖)`, with the degenerate case
first: if either vector has zero norm the similarity is `-1` (cannot
match) and the division is not performed. -/
noncomputable def cosineSim (q c : List ℚ) : ℝ :=
  if normSq q = 0 ∨ normSq c = 0 then -1
  else ((dot q c : ℚ) : ℝ) / (norm2 q * norm2 c)

/-- Match result handed back to the HTTP layer (spec §3 `MatchCandidate`). -/
structure MatchCandidate where
  user_id : String
  similarity : ℝ
  is_match : Bool

/-- Left-to-right maximum selection over the candidate tail: the running
best is replaced only on strictly greater similarity, so on ties the
earlier (lower-`id`) candidate is kept. -/
noncomputable def bestCand (q : List ℚ) (first : String × ℝ) :
    List (String × List ℚ) → String × ℝ
  | [] => first
  | (u, c) :: rest =>
    if cosineSim q c > first.2 then bestCand q (u, cosineSim q c) rest
    else bestCand q first rest

/-- Modelled from the spec: `Match` of §4.2 (the `recognizer.recognize`
called at `src/api/routes.py:165`, module absent from src/).  Guards the
store-wide dimension invariant (`DimensionMismatch`), returns nothing on an
empty candidate sequence, otherwise the maximal-similarity candidate with
`is_match = (max similarity ≥ threshold)`. -/
noncomputable def Match (q : List ℚ) (cands : List (String × List ℚ))
    (t : ℚ) : Except ErrKind (Option MatchCandidate) :=
  if cands.all (fun p => p.2.length == q.length) then
    match cands with
    | [] => .ok none
    | (u, c) :: rest =>
      let b := bestCand q (u, cosineSim q c) rest
      .ok (some ⟨b.1, b.2, decide ((t : ℝ) ≤ b.2)⟩)
  else .error .dimensionMismatch

lemma dot_self_nonneg : ∀ v : List ℚ, 0 ≤ dot v v := by
  intro v
  induction v with
  | nil => exact le_refl 0
  | cons a as ih =>
    have : dot (a :: as) (a :: as) = a * a + dot as as := rfl
    rw [this]
    exact add_nonneg (mul_self_nonneg a) ih

/-- C4.  A zero-norm side makes the similarity `-1` instead of failing, and
whenever neither norm is zero the denominator `‖q‖ · ‖c‖` of the cosine
formula is nonzero; a `Match` against a zero-norm pair therefore reports
similarity `-1`. -/
theorem cosineSim_zero_norm (q c : List ℚ) :
    ((normSq q = 0 ∨ normSq c = 0) → cosineSim q c = -1)
    ∧ (¬(normSq q = 0 ∨ normSq c = 0) →
        norm2 q * norm2 c ≠ 0
        ∧ cosineSim q c = ((dot q c : ℚ) : ℝ) / (norm2 q * norm2 c))
    ∧ ∀ (u : String) (t : ℚ), c.length = q.length →
        (normSq q = 0 ∨ normSq c = 0) →
        ∃ b : Bool, Match q [(u, c)] t = .ok (some ⟨u, -1, b⟩) := by
  refine ⟨?_, ?_, ?_⟩
  · intro h
    unfold cosineSim
    rw [if_pos h]
  · intro h
    push_neg at h
    have hq : (0 : ℝ) < ((normSq q : ℚ) : ℝ) := by
      have h0 : 0 ≤ normSq q := dot_self_nonneg q
      have h1 : 0 < normSq q := lt_of_le_of_ne h0 (Ne.symm h.1)
      exact_mod_cast h1
    have hc : (0 : ℝ) < ((normSq c : ℚ) : ℝ) := by
      have h0 : 0 ≤ normSq c := dot_self_nonneg c
      have h1 : 0 < normSq c := lt_of_le_of_ne h0 (Ne.symm h.2)
      exact_mod_cast h1
    refine ⟨?_, ?_⟩
    · have hpos : 0 < norm2 q * norm2 c :=
        mul_pos (Real.sqrt_pos.mpr hq) (Real.sqrt_pos.mpr hc)
      exact ne_of_gt hpos
    · unfold cosineSim
      rw [if_neg]
      push_neg
      exact ⟨h.1, h.2⟩
  · intro u t hlen hz
    have hsim : cosineSim q c = -1 := by
      unfold cosineSim
      rw [if_pos hz]
    refine ⟨decide ((t : ℝ) ≤ -1), ?_⟩
    simp [Match, bestCand, hlen, hsim]

/-- Witness for C4: a zero query vector against a one-candidate snapshot. -/
theorem cosineSim_zero_norm_wit :
    cosineSim [0, 0] [1, 1] = -1
    ∧ ∃ b : Bool,
        Match [0, 0] [("a", [1, 1])] (1 / 2) = .ok (some ⟨"a", -1, b⟩) :=
  ⟨(cosineSim_zero_norm [0, 0] [1, 1]).1
      (Or.inl (by norm_num [normSq, dot])),
   (cosineSim_zero_norm [0, 0] [1, 1]).2.2 "a" (1 / 2) rfl
      (Or.inl (by norm_num [normSq, dot]))⟩

/-- Per-face match entry of the recognize response
(`src/api/schemas.py` `RecognitionMatch`). -/
structure RecognitionMatch where
  user_id : String
  name : Option String
  similarity : ℝ
  is_match : Bool

/-- Recognize response (`src/api/schemas.py` `RecognizeFaceResponse`; the
source field `matches` is spelled `matches'` because `matches` is reserved
syntax in Lean). -/
structure RecognizeFaceResponse where
  success : Bool
  faces_detected : Nat
  matches' : List RecognitionMatch
  message : Option String

/-- Name enrichment of a match (`src/api/routes.py:168-177`): the handler
looks the winner's name up and builds the response entry. -/
def toRecognitionMatch (nameOf : String → Option String)
    (m : MatchCandidate) : RecognitionMatch :=
  ⟨m.user_id, nameOf m.user_id, m.similarity, m.is_match⟩

/-- Per-face matching loop of `src/api/routes.py:161-177`, parametric in
the per-face matcher `step` (the external `recognizer.recognize` call) and
the response builder `push`: a face whose `step` returns nothing is
silently skipped (`if result:`), with no error and no placeholder entry. -/
def matchLoop (step : List ℚ → Except ErrKind (Option MatchCandidate))
    (push : MatchCandidate → RecognitionMatch) :
    List (List ℚ) → Except ErrKind (List RecognitionMatch)
  | [] => .ok []
  | f :: rest =>
    match step f with
    | .error err => .error err
    | .ok none => matchLoop step push rest
    | .ok (some m) =>
      match matchLoop step push rest with
      | .error err => .error err
      | .ok ms => .ok (push m :: ms)

/-- Recognize flow of `src/api/routes.py:142-183` after embedding
extraction: early return when no face was detected, early return when the
registry snapshot is empty, otherwise one `Match` per detected face against
the single snapshot `snap`. -/
noncomputable def recognize_face (nameOf : String → Option String)
    (faceData : List (List ℚ)) (snap : List (String × List ℚ)) (t : ℚ) :
    Except ErrKind RecognizeFaceResponse :=
  if faceData = [] then
    .ok ⟨true, 0, [], some "No faces detected in image"⟩
  else if snap = [] then
    .ok ⟨true, faceData.length, [],
      some "No faces in database to compare with"⟩
  else
    match matchLoop (fun f => Match f snap t) (toRecognitionMatch nameOf)
        faceData with
    | .error err => .error err
    | .ok ms => .ok ⟨true, faceData.length, ms, none⟩

/-- C5.  `Match` against an empty candidate sequence returns nothing and no
error, and the recognize flow on an empty registry returns a successful
response with an empty match list (`src/api/routes.py:153-159`). -/
theorem Match_empty_candidates (q : List ℚ) (t : ℚ) :
    Match q [] t = .ok none
    ∧ ∀ (nameOf : String → Option String) (faceData : List (List ℚ)),
        faceData ≠ [] →
        recognize_face nameOf faceData [] t
          = .ok ⟨true, faceData.length, [],
              some "No faces in database to compare with"⟩ := by
  constructor
  · rfl
  · intro nameOf faceData h
    unfold recognize_face
    rw [if_neg h, if_pos rfl]

/-- Witness for C5: one detected face, empty registry. -/
theorem Match_empty_candidates_wit :
    Match [1] [] (1 / 2) = .ok none
    ∧ recognize_face (fun _ => none) [[1]] [] (1 / 2)
        = .ok ⟨true, 1, [], some "No faces in database to compare with"⟩ :=
  ⟨(Match_empty_candidates [1] (1 / 2)).1,
   (Match_empty_candidates [1] (1 / 2)).2 (fun _ => none) [[1]] (by simp)⟩

lemma bestCand_first_argmax (q : List ℚ) :
    ∀ (rest : List (String × List ℚ)) (first : String × ℝ),
      (bestCand q first rest = first
          ∧ ∀ j : Fin rest.length, cosineSim q (rest.get j).2 ≤ first.2)
      ∨ (∃ i : Fin rest.length,
          bestCand q first rest = ((rest.get i).1, cosineSim q (rest.get i).2)
          ∧ first.2 < cosineSim q (rest.get i).2
          ∧ (∀ j : Fin rest.length,
              cosineSim q (rest.get j).2 ≤ cosineSim q (rest.get i).2)
          ∧ (∀ j : Fin rest.length, (j : ℕ) < (i : ℕ) →
              cosineSim q (rest.get j).2 < cosineSim q (rest.get i).2)) := by
  intro rest
  induction rest with
  | nil =>
    intro first
    exact Or.inl ⟨rfl, fun j => j.elim0⟩
  | cons p rest ih =>
    intro first
    obtain ⟨u, c⟩ := p
    by_cases hgt : cosineSim q c > first.2
    · have hstep : bestCand q first ((u, c) :: rest)
          = bestCand q (u, cosineSim q c) rest := by
        simp only [bestCand]
        rw [if_pos hgt]
      rcases ih (u, cosineSim q c) with ⟨heq, hall⟩ | ⟨i, heq, hlt, hall, hstrict⟩
      · refine Or.inr ⟨⟨0, Nat.succ_pos _⟩, ?_, ?_, ?_, ?_⟩
        · rw [hstep, heq]
          rfl
        · exact hgt
        · intro j
          rcases j with ⟨jv, hj⟩
          cases jv with
          | zero => exact le_refl _
          | succ j' => exact hall ⟨j', Nat.lt_of_succ_lt_succ hj⟩
        · intro j hj0
          exact absurd hj0 (Nat.not_lt_zero _)
      · refine Or.inr ⟨⟨i.1 + 1, Nat.succ_lt_succ i.2⟩, ?_, ?_, ?_, ?_⟩
        · rw [hstep, heq]
          rfl
        · exact lt_trans hgt hlt
        · intro j
          rcases j with ⟨jv, hj⟩
          cases jv with
          | zero => exact le_of_lt hlt
          | succ j' => exact hall ⟨j', Nat.lt_of_succ_lt_succ hj⟩
        · intro j hj0
          rcases j with ⟨jv, hj⟩
          cases jv with
          | zero => exact hlt
          | succ j' =>
            have hj1 : j' + 1 < i.1 + 1 := hj0
            exact hstrict ⟨j', Nat.lt_of_succ_lt_succ hj⟩
              (Nat.lt_of_succ_lt_succ hj1)
    · have hstep : bestCand q first ((u, c) :: rest)
          = bestCand q first rest := by
        simp only [bestCand]
        rw [if_neg hgt]
      have hle : cosineSim q c ≤ first.2 := not_lt.mp hgt
      rcases ih first with ⟨heq, hall⟩ | ⟨i, heq, hlt, hall, hstrict⟩
      · refine Or.inl ⟨by rw [hstep, heq], ?_⟩
        intro j
        rcases j with ⟨jv, hj⟩
        cases jv with
        | zero => exact hle
        | succ j' => exact hall ⟨j', Nat.lt_of_succ_lt_succ hj⟩
      · refine Or.inr ⟨⟨i.1 + 1, Nat.succ_lt_succ i.2⟩, ?_, ?_, ?_, ?_⟩
        · rw [hstep, heq]
          rfl
        · exact hlt
        · intro j
          rcases j with ⟨jv, hj⟩
          cases jv with
          | zero => exact le_trans hle (le_of_lt hlt)
          | succ j' => exact hall ⟨j', Nat.lt_of_succ_lt_succ hj⟩
        · intro j hj0
          rcases j with ⟨jv, hj⟩
          cases jv with
          | zero => exact lt_of_le_of_lt hle hlt
          | succ j' =>
            have hj1 : j' + 1 < i.1 + 1 := hj0
            exact hstrict ⟨j', Nat.lt_of_succ_lt_succ hj⟩
              (Nat.lt_of_succ_lt_succ hj1)

/-- C3.  On a non-empty candidate sequence of admissible dimensions, the
candidate `Match` returns attains the maximal cosine similarity and every
strictly earlier candidate in the snapshot's ascending-`id` order has
strictly smaller similarity — so on an exact similarity tie the candidate
appearing first (lowest `id`) wins, and the winner is the unique least
maximizing index, making `Match` a deterministic function of query,
candidates and threshold. -/
theorem Match_tie_lowest_index (q : List ℚ) (t : ℚ)
    (cands : List (String × List ℚ)) (hne : cands ≠ [])
    (hdim : ∀ p ∈ cands, p.2.length = q.length) :
    ∃ m : MatchCandidate, Match q cands t = .ok (some m)
      ∧ ∃ i : Fin cands.length,
          m.user_id = (cands.get i).1
          ∧ m.similarity = cosineSim q (cands.get i).2
          ∧ (∀ j : Fin cands.length,
              cosineSim q (cands.get j).2 ≤ m.similarity)
          ∧ (∀ j : Fin cands.length, (j : ℕ) < (i : ℕ) →
              cosineSim q (cands.get j).2 < m.similarity) := by
  cases cands with
  | nil => exact absurd rfl hne
  | cons p rest =>
    obtain ⟨u, c⟩ := p
    have hall : ((u, c) :: rest).all (fun p => p.2.length == q.length)
        = true := by
      rw [List.all_eq_true]
      intro x hx
      simpa using hdim x hx
    have hM : Match q ((u, c) :: rest) t
        = .ok (some ⟨(bestCand q (u, cosineSim q c) rest).1,
                     (bestCand q (u, cosineSim q c) rest).2,
                     decide ((t : ℝ)
                        ≤ (bestCand q (u, cosineSim q c) rest).2)⟩) := by
      unfold Match
      rw [if_pos hall]
    rcases bestCand_first_argmax q rest (u, cosineSim q c) with
      ⟨heq, hall2⟩ | ⟨i, heq, hlt, hall2, hstrict⟩
    · refine ⟨_, hM, ⟨0, Nat.succ_pos _⟩, ?_, ?_, ?_, ?_⟩
      · rw [heq]
        rfl
      · rw [heq]
        rfl
      · intro j
        rcases j with ⟨jv, hj⟩
        cases jv with
        | zero =>
          rw [heq]
          exact le_refl _
        | succ j' =>
          rw [heq]
          exact hall2 ⟨j', Nat.lt_of_succ_lt_succ hj⟩
      · intro j hj0
        exact absurd hj0 (Nat.not_lt_zero _)
    · refine ⟨_, hM, ⟨i.1 + 1, Nat.succ_lt_succ i.2⟩, ?_, ?_, ?_, ?_⟩
      · rw [heq]
        rfl
      · rw [heq]
        rfl
      · intro j
        rcases j with ⟨jv, hj⟩
        cases jv with
        | zero =>
          rw [heq]
          exact le_of_lt hlt
        | succ j' =>
          rw [heq]
          exact hall2 ⟨j', Nat.lt_of_succ_lt_succ hj⟩
      · intro j hj0
        rcases j with ⟨jv, hj⟩
        cases jv with
        | zero =>
          rw [heq]
          exact hlt
        | succ j' =>
          rw [heq]
          have hj1 : j' + 1 < i.1 + 1 := hj0
          exact hstrict ⟨j', Nat.lt_of_succ_lt_succ hj⟩
            (Nat.lt_of_succ_lt_succ hj1)

/-- Witness for C3: two candidates with identical embeddings (an exact
similarity tie) — the theorem applies and pins the winner to the least
maximizing index. -/
theorem Match_tie_lowest_index_wit :
    ∃ m : MatchCandidate,
      Match [1, 0] [("a", [1, 0]), ("b", [1, 0])] (1 / 2) = .ok (some m)
      ∧ ∃ i : Fin ([("a", [1, 0]), ("b", [1, 0])]
            : List (String × List ℚ)).length,
          m.user_id = ([("a", [1, 0]), ("b", [1, 0])].get i).1
          ∧ m.similarity
              = cosineSim [1, 0] ([("a", [1, 0]), ("b", [1, 0])].get i).2
          ∧ (∀ j : Fin ([("a", [1, 0]), ("b", [1, 0])]
                : List (String × List ℚ)).length,
              cosineSim [1, 0] ([("a", [1, 0]), ("b", [1, 0])].get j).2
                ≤ m.similarity)
          ∧ (∀ j : Fin ([("a", [1, 0]), ("b", [1, 0])]
                : List (String × List ℚ)).length, (j : ℕ) < (i : ℕ) →
              cosineSim [1, 0] ([("a", [1, 0]), ("b", [1, 0])].get j).2
                < m.similarity) :=
  Match_tie_lowest_index [1, 0] (1 / 2) [("a", [1, 0]), ("b", [1, 0])]
    (List.cons_ne_nil _ _) (by decide)

/-- Instrumented recognize flow: identical to `recognize_face` except that
the registry snapshot is obtained from a fetch stream (`fetch n` is what
the n-th `db.get_all_embeddings()` call would observe under concurrent
mutation) and the number of fetches performed is returned.  The source has
exactly one fetch call site (`src/api/routes.py:151`), executed after the
no-face early return and before the per-face loop. -/
noncomputable def recognize_face_trace (nameOf : String → Option String)
    (faceData : List (List ℚ)) (fetch : Nat → List (String × List ℚ))
    (t : ℚ) : (Except ErrKind RecognizeFaceResponse) × Nat :=
  if faceData = [] then
    (.ok ⟨true, 0, [], some "No faces detected in image"⟩, 0)
  else
    let snap := fetch 0
    if snap = [] then
      (.ok ⟨true, faceData.length, [],
        some "No faces in database to compare with"⟩, 1)
    else
      (match matchLoop (fun f => Match f snap t) (toRecognitionMatch nameOf)
          faceData with
      | .error err => .error err
      | .ok ms => .ok ⟨true, faceData.length, ms, none⟩, 1)

/-- C7.  The registry snapshot is fetched exactly once per recognize
request (zero times only when no face was detected), the whole outcome
depends only on that single first fetch, and it equals the plain flow run
against that snapshot — so every per-face `Match` of one image uses the
same comparison set. -/
theorem snapshot_fetched_once (nameOf : String → Option String)
    (faceData : List (List ℚ)) (fetch fetch2 : Nat → List (String × List ℚ))
    (t : ℚ) (h : fetch 0 = fetch2 0) :
    recognize_face_trace nameOf faceData fetch t
        = recognize_face_trace nameOf faceData fetch2 t
    ∧ (recognize_face_trace nameOf faceData fetch t).1
        = recognize_face nameOf faceData (fetch 0) t
    ∧ (recognize_face_trace nameOf faceData fetch t).2
        = (if faceData = [] then 0 else 1) := by
  by_cases hf : faceData = []
  · simp [recognize_face_trace, recognize_face, hf]
  · simp [recognize_face_trace, recognize_face, hf, h]
    by_cases hsnap : fetch2 0 = [] <;> simp [hsnap]

/-- Witness for C7: two detected faces, two fetch streams that agree on the
first fetch and disagree later. -/
theorem snapshot_fetched_once_wit :
    recognize_face_trace (fun _ => none) [[1], [2]] (fun _ => []) (1 / 2)
        = recognize_face_trace (fun _ => none) [[1], [2]]
            (fun n => if n = 0 then [] else [("x", [1])]) (1 / 2)
    ∧ (recognize_face_trace (fun _ => none) [[1], [2]]
          (fun _ => []) (1 / 2)).1
        = recognize_face (fun _ => none) [[1], [2]] [] (1 / 2)
    ∧ (recognize_face_trace (fun _ => none) [[1], [2]]
          (fun _ => []) (1 / 2)).2
        = (if ([[1], [2]] : List (List ℚ)) = [] then 0 else 1) :=
  snapshot_fetched_once (fun _ => none) [[1], [2]] (fun _ => [])
    (fun n => if n = 0 then [] else [("x", [1])]) (1 / 2) rfl

/-- Threshold-validated entry of the recognize endpoint: the HTTP layer
declares `threshold: float = Query(0.5, ge=0.0, le=1.0)`
(`src/api/routes.py:117`), so an out-of-range threshold is rejected as a
validation error before any matching runs. -/
noncomputable def recognize_face_endpoint (nameOf : String → Option String)
    (faceData : List (List ℚ)) (snap : List (String × List ℚ)) (t : ℚ) :
    Except ErrKind RecognizeFaceResponse :=
  if 0 ≤ t ∧ t ≤ 1 then recognize_face nameOf faceData snap t
  else .error .validationError

lemma Match_is_match_iff {q : List ℚ} {cands : List (String × List ℚ)}
    {t : ℚ} {m : MatchCandidate} (hm : Match q cands t = .ok (some m)) :
    m.is_match = true ↔ (t : ℝ) ≤ m.similarity := by
  unfold Match at hm
  by_cases hall : cands.all (fun p => p.2.length == q.length) = true
  · rw [if_pos hall] at hm
    cases cands with
    | nil => exact absurd hm (by simp)
    | cons p rest =>
      obtain ⟨u, c⟩ := p
      simp only [Except.ok.injEq, Option.some.injEq] at hm
      rw [← hm]
      simp [decide_eq_true_eq]
  · rw [if_neg hall] at hm
    exact absurd hm (by simp)

/-- C9.  An out-of-range threshold is rejected with `ValidationError`
before matching; an in-range threshold reaches the matching flow
unchanged; and for every `Match` result, `is_match` holds exactly when the
returned (maximal) similarity is greater than or equal to the threshold —
so exact equality is a match. -/
theorem threshold_validated_and_inclusive (nameOf : String → Option String)
    (faceData : List (List ℚ)) (snap : List (String × List ℚ)) (t : ℚ) :
    (¬(0 ≤ t ∧ t ≤ 1) →
      recognize_face_endpoint nameOf faceData snap t
        = .error .validationError)
    ∧ ((0 ≤ t ∧ t ≤ 1) →
      recognize_face_endpoint nameOf faceData snap t
        = recognize_face nameOf faceData snap t)
    ∧ ∀ (q : List ℚ) (cands : List (String × List ℚ)) (m : MatchCandidate),
        Match q cands t = .ok (some m) →
        (m.is_match = true ↔ (t : ℝ) ≤ m.similarity) := by
  refine ⟨?_, ?_, ?_⟩
  · intro h
    unfold recognize_face_endpoint
    rw [if_neg h]
  · intro h
    unfold recognize_face_endpoint
    rw [if_pos h]
  · intro q cands m hm
    exact Match_is_match_iff hm

lemma cosineSim_unit : cosineSim [1, 0] [1, 0] = 1 := by
  have h1 : normSq [1, 0] = 1 := by norm_num [normSq, dot]
  have hd : dot ([1, 0] : List ℚ) [1, 0] = 1 := by norm_num [dot]
  have hn : norm2 [1, 0] = 1 := by
    unfold norm2
    rw [h1]
    norm_num
  unfold cosineSim
  rw [if_neg (by simp [h1]), hd, hn]
  norm_num

lemma Match_unit_eval :
    Match [1, 0] [("a", [1, 0])] 1 = .ok (some ⟨"a", 1, true⟩) := by
  have hb : decide (((1 : ℚ) : ℝ) ≤ (1 : ℝ)) = true :=
    decide_eq_true (by norm_num)
  unfold Match
  rw [if_pos (by decide)]
  simp only [bestCand, cosineSim_unit]
  rw [hb]

/-- Witness for C9: threshold `3/2` is rejected as a validation error, and
at threshold `1` an exact-similarity candidate (`similarity = 1`) is a
match. -/
theorem threshold_validated_and_inclusive_wit :
    recognize_face_endpoint (fun _ => none) [[1]] [] (3 / 2)
        = .error .validationError
    ∧ ((⟨"a", 1, true⟩ : MatchCandidate).is_match = true
        ↔ ((1 : ℚ) : ℝ) ≤ (⟨"a", 1, true⟩ : MatchCandidate).similarity) :=
  ⟨(threshold_validated_and_inclusive (fun _ => none) [[1]] [] (3 / 2)).1
      (by norm_num),
   (threshold_validated_and_inclusive (fun _ => none) [[1]] [] 1).2.2
      [1, 0] [("a", [1, 0])] ⟨"a", 1, true⟩ Match_unit_eval⟩

/-- C10.  In the per-face loop, a face whose matching step returns no
result is silently dropped: never an error, no placeholder entry, the match
list never exceeds the number of detected faces, and a successful response
can report strictly fewer matches than `faces_detected`
(`src/api/routes.py:161-183`). -/
theorem matches_silently_omitted :
    (∀ (step : List ℚ → Except ErrKind (Option MatchCandidate))
        (push : MatchCandidate → RecognitionMatch)
        (faceData : List (List ℚ)) (ms : List RecognitionMatch),
        matchLoop step push faceData = .ok ms → ms.length ≤ faceData.length)
    ∧ (∀ (step : List ℚ → Except ErrKind (Option MatchCandidate))
        (push : MatchCandidate → RecognitionMatch)
        (f : List ℚ) (rest : List (List ℚ)),
        step f = .ok none →
        matchLoop step push (f :: rest) = matchLoop step push rest)
    ∧ (∃ resp, recognize_face (fun _ => none) [[1]] [] (1 / 2) = .ok resp
        ∧ resp.success = true
        ∧ resp.matches'.length < resp.faces_detected) := by
  refine ⟨?_, ?_, ?_⟩
  · intro step push faceData
    induction faceData with
    | nil =>
      intro ms hms
      obtain rfl : ([] : List RecognitionMatch) = ms := by
        simpa [matchLoop] using hms
      exact Nat.le_refl _
    | cons f rest ih =>
      intro ms hms
      simp only [matchLoop] at hms
      cases hstep : step f with
      | error e =>
        rw [hstep] at hms
        simp at hms
      | ok r =>
        rw [hstep] at hms
        cases r with
        | none =>
          exact le_trans (ih ms hms) (Nat.le_succ _)
        | some m =>
          cases hrec : matchLoop step push rest with
          | error e =>
            rw [hrec] at hms
            simp at hms
          | ok ms2 =>
            rw [hrec] at hms
            have hms3 : push m :: ms2 = ms := by simpa using hms
            rw [← hms3]
            simp only [List.length_cons]
            exact Nat.succ_le_succ (ih ms2 hrec)
  · intro step push f rest hstep
    simp only [matchLoop, hstep]
  · refine ⟨⟨true, 1, [], some "No faces in database to compare with"⟩,
      ?_, rfl, by decide⟩
    unfold recognize_face
    rw [if_neg (by simp), if_pos rfl]
    rfl

/-- Witness for C10: a face whose step yields nothing is skipped without a
trace, and a one-face request against an empty registry succeeds with zero
matches out of one detected face. -/
theorem matches_silently_omitted_wit :
    matchLoop (fun _ => .ok none)
        (toRecognitionMatch (fun _ => none)) [[1], [2]]
      = matchLoop (fun _ => .ok none)
        (toRecognitionMatch (fun _ => none)) [[2]]
    ∧ ∃ resp, recognize_face (fun _ => none) [[1]] [] (1 / 2) = .ok resp
        ∧ resp.success = true
        ∧ resp.matches'.length < resp.faces_detected :=
  ⟨matches_silently_omitted.2.1 (fun _ => .ok none)
      (toRecognitionMatch (fun _ => none)) [1] [[2]] rfl,
   matches_silently_omitted.2.2⟩
